import Mathlib

/-!
Verification of the `apt` block (`src/blocks/apt.rs`) and the button widget
(`src/widgets/button.rs`) of the i3status-rust fork, against its
natural-language specification.

The Rust source is shallowly embedded: pure functions become Lean functions,
external effects (running `apt-cache policy`, compiling a regex, looking up an
icon, the color table of the theme) become explicit oracle parameters of function
type, and fallible code returns `Except String`.
-/

namespace I3Status

/-! ## String helpers mirroring Rust `str` semantics -/

/-- One step of splitting a character list at `'\n'`; the accumulator holds the
current line reversed. Mirrors the split that `str::lines` performs. -/
def splitNlAux : List Char → List Char → List (List Char)
  | [], acc => [acc.reverse]
  | c :: rest, acc =>
    if c = '\n' then acc.reverse :: splitNlAux rest []
    else splitNlAux rest (c :: acc)

/-- Split a character list on `'\n'`, keeping empty segments. -/
def splitNl (cs : List Char) : List (List Char) := splitNlAux cs []

/-- Strip one trailing `'\r'`, as `str::lines` does to each split segment. -/
def stripCr (cs : List Char) : List Char :=
  match cs.reverse with
  | '\r' :: rest => rest.reverse
  | _ => cs

/-- Rust `str::lines`: split on `'\n'`, drop a final empty segment (so a
trailing newline adds no empty line), strip a trailing `'\r'` per line. -/
def rustLines (s : String) : List String :=
  let segs := splitNl s.data
  let segs :=
    match segs.reverse with
    | [] :: rest => rest.reverse
    | _ => segs
  segs.map (fun cs => String.mk (stripCr cs))

/-- Rust `str::contains(pat)` for a literal pattern: substring containment. -/
def containsSub (needle : List Char) : List Char → Bool
  | [] => needle.isEmpty
  | c :: rest => needle.isPrefixOf (c :: rest) || containsSub needle rest

/-! ## `apt.rs`: counting upgradable lines -/

/-- The marker `get_update_count` looks for in each line of the listing. -/
def upgradableMarker : List Char := "[upgradable".data

/-- Embeds `apt.rs` `get_update_count`: the number of lines of the listing that
contain the substring `"[upgradable"`. -/
def get_update_count (updates : String) : Nat :=
  ((rustLines updates).filter
    (fun line => containsSub upgradableMarker line.data)).length

/-! ## `apt.rs`: phased updates

`is_waiting_phased_update` runs `apt-cache policy <package>` and matches the
regex `.*\(phased (\d+)%\).*` against the output; the external command is
embedded as an oracle `policy : String → String` mapping a package name to the
command output. The regexes are embedded concretely, with Rust `regex`
crate semantics: leftmost match, greedy repetition, `.` not matching `'\n'`. -/

/-- For the pattern `\(phased (\d+)%\)` inside one newline-free segment:
the capture of the LAST occurrence (the leading greedy `.*` of
`.*\(phased (\d+)%\).*` backtracks from the end of the segment). The digit run
is maximal, and must be nonempty and followed by `"%)"`. -/
def lastPhasedIn : List Char → Option (List Char)
  | [] => none
  | c :: rest =>
    match lastPhasedIn rest with
    | some ds => some ds
    | none =>
      if ("(phased ".data).isPrefixOf (c :: rest) then
        let after := (c :: rest).drop 8
        let ds := after.takeWhile Char.isDigit
        if !ds.isEmpty && ("%)".data).isPrefixOf (after.dropWhile Char.isDigit)
        then some ds
        else none
      else none

/-- First `some` in a list of options (leftmost regex match: the first line of
the haystack that contains an occurrence wins). -/
def firstSome {α : Type} : List (Option α) → Option α
  | [] => none
  | some a :: _ => some a
  | none :: rest => firstSome rest

/-- Embeds `PHASED_REGEX.captures(output)` of `apt.rs`: capture group 1 of
`.*\(phased (\d+)%\).*`. Since `.` does not cross `'\n'`, the match lies in a
single newline-delimited segment; leftmost-match takes the first segment
containing an occurrence, and the greedy leading `.*` takes the last
occurrence within it. -/
def phasedCapture (output : String) : Option (List Char) :=
  firstSome ((splitNl output.data).map lastPhasedIn)

/-- Embeds `PACKAGE_NAME_REGEX.captures(package_line)` of `apt.rs`: capture group 1 of
`(.*)/.*`. On a newline-free line this matches iff the line contains `'/'`,
capturing everything before the last `'/'` (greedy group). -/
def package_name_capture (line : String) : Option String :=
  if line.data.contains '/' then
    some (String.mk ((line.data.reverse.dropWhile (fun c => c ≠ '/')).tail.reverse))
  else none

/-- Embeds `apt.rs` `is_waiting_phased_update`: extract the package name from the
listing line (error when the name regex does not match), run
`apt-cache policy` on it (the `policy` oracle), and return whether the output
shows a phased percentage different from 100. -/
def is_waiting_phased_update (policy : String → String) (package_line : String) :
    Except String Bool :=
  match package_name_capture package_line with
  | none => .error "Couldnt find package name"
  | some name =>
    match phasedCapture (policy name) with
    | some ds => .ok (String.mk ds != "100")
    | none => .ok false

/-- The `filter_map`/`collect::<Result<Vec<bool>>>` of
`get_update_count_ignore_waiting_phased`: keeps `Ok(true)` results, drops
`Ok(false)`, and short-circuits on the first `Err`. -/
def collectWaiting (policy : String → String) : List String → Except String (List Bool)
  | [] => .ok []
  | line :: rest =>
    match is_waiting_phased_update policy line with
    | .error e => .error e
    | .ok true =>
      match collectWaiting policy rest with
      | .error e => .error e
      | .ok v => .ok (true :: v)
    | .ok false => collectWaiting policy rest

/-- Embeds `apt.rs` `get_update_count_ignore_waiting_phased`: filter the lines of the listing to those containing `"[upgradable"`, keep those for which
`is_waiting_phased_update` returns `Ok(true)` (note: it KEEPS the waiting
phased ones), propagate the first error, and return the length of the
collected vector. -/
def get_update_count_ignore_waiting_phased (policy : String → String)
    (updates : String) : Except String Nat :=
  match collectWaiting policy
      ((rustLines updates).filter
        (fun line => containsSub upgradableMarker line.data)) with
  | .error e => .error e
  | .ok v => .ok v.length

/-! ## `apt.rs`: the block itself

A compiled `regex::Regex` is embedded as its matching function
`String → Bool`; `Regex::new` as an oracle `compile : String → Option RegexF`
(`none` = compilation error). -/

/-- A compiled regex, reduced to its `is_match` behaviour on one line. -/
def RegexF : Type := String → Bool

/-- Widget severity state (`widgets::State`). -/
inductive State : Type
  | Idle
  | Info
  | Warning
  | Critical
deriving DecidableEq, Repr

/-- Modelled from the spec: the `Update` policy type returned by the update cycle of a block lives outside `src/` (`blocks::Update`); per the spec it is
either "wake again after duration D" or "go dormant", with no other outcome.
`Apt::update` builds it from a `Duration` via `.into()`, which yields the
wake-after-D variant. Durations are in seconds. -/
inductive Update : Type
  | every (d : Nat)
  | dormant
deriving DecidableEq, Repr

/-- Which of the three configured templates `Apt::update` renders:
`format_up_to_date`, `format_singular`, or `format` (the default used for all
other counts). `FormatTemplate::render` itself lives outside `src/`; the
claims concern only the selection among the three variants. -/
inductive FormatVariant : Type
  | upToDate
  | singular
  | many
deriving DecidableEq, Repr

/-- Embeds `apt.rs` `has_warning_update`: some line of the listing matches the
regex. -/
def has_warning_update (updates : String) (regex : RegexF) : Bool :=
  ((rustLines updates).filter (fun line => regex line)).length > 0

/-- Embeds `apt.rs` `has_critical_update`: identical to `has_warning_update`. -/
def has_critical_update (updates : String) (regex : RegexF) : Bool :=
  ((rustLines updates).filter (fun line => regex line)).length > 0

/-- Embeds `AptConfig` (the fields the claims touch; the three `FormatTemplate`
fields are carried as their parsed selection behaviour and elided here, and
`interval` is in seconds). -/
structure AptConfig : Type where
  interval : Nat
  warning_updates_regex : Option String
  critical_updates_regex : Option String
  ignore_waiting_phased_updates : Bool

/-- Embeds `impl Default for AptConfig`. -/
def AptConfig.default : AptConfig where
  interval := 600
  warning_updates_regex := none
  critical_updates_regex := none
  ignore_waiting_phased_updates := false

/-- The `Apt` block state (the fields `Apt::update` reads; the widget, the
config path and the parsed templates are represented by their behaviour). -/
structure AptBlock : Type where
  update_interval : Nat
  warning_updates_regex : Option RegexF
  critical_updates_regex : Option RegexF
  ignore_waiting_phased_updates : Bool

/-- The `.map(Regex::new).transpose().error_msg(..)` chain of
`ConfigBlock::new for Apt` applied to one optional pattern string. -/
def compileOpt (compile : String → Option RegexF) (s? : Option String)
    (msg : String) : Except String (Option RegexF) :=
  match s? with
  | none => .ok none
  | some s =>
    match compile s with
    | some r => .ok (some r)
    | none => .error msg

/-- Embeds `ConfigBlock::new for Apt`: compiles the two optional pattern strings,
propagating a compilation failure as a construction error. The filesystem
setup (temp dir, `apt.conf`) and the icon lookup of the widget are elided as
succeeding: they happen before the regex step and can only add further error
cases, never mask one. -/
def Apt.new (compile : String → Option RegexF) (cfg : AptConfig) :
    Except String AptBlock :=
  match compileOpt compile cfg.warning_updates_regex
      "invalid warning updates regex" with
  | .error e => .error e
  | .ok w =>
    match compileOpt compile cfg.critical_updates_regex
        "invalid critical updates regex" with
    | .error e => .error e
    | .ok c =>
      .ok { update_interval := cfg.interval
            warning_updates_regex := w
            critical_updates_regex := c
            ignore_waiting_phased_updates := cfg.ignore_waiting_phased_updates }

/-- The `count` computed inside `Apt::update` from the upgrade listing. -/
def Apt.countUpdates (apt : AptBlock) (policy : String → String)
    (updates_list : String) : Except String Nat :=
  if apt.ignore_waiting_phased_updates then
    get_update_count_ignore_waiting_phased policy updates_list
  else .ok (get_update_count updates_list)

/-- What one successful `Apt::update` cycle does to the widget of the block and
returns to the scheduler: which template variant was rendered with
`count` bound, the widget `State` set, and the returned update policy. -/
structure UpdateOutcome : Type where
  texts : FormatVariant
  count : Nat
  state : State
  policy : Update
deriving DecidableEq, Repr

/-- Embeds `Apt::update` (`apt.rs` lines 216-257), given the listing that
`get_updates_list` returned (its external commands are not modelled; a
failure there propagates before anything below runs). Mirrors the source:
count (phased-aware or plain), the two severity flags via
`map_or(false, ..)`, the three-way `match` on the count for the rendered
template, the `match` for the state, and `Ok(Some(interval.into()))`. -/
def Apt.update (apt : AptBlock) (policy : String → String)
    (updates_list : String) : Except String UpdateOutcome :=
  match Apt.countUpdates apt policy updates_list with
  | .error e => .error e
  | .ok count =>
    let warning :=
      match apt.warning_updates_regex with
      | none => false
      | some regex => has_warning_update updates_list regex
    let critical :=
      match apt.critical_updates_regex with
      | none => false
      | some regex => has_critical_update updates_list regex
    .ok
      { texts :=
          match count with
          | 0 => .upToDate
          | 1 => .singular
          | _ => .many
        count := count
        state :=
          match count with
          | 0 => State.Idle
          | _ =>
            if critical then State.Critical
            else if warning then State.Warning
            else State.Info
        policy := Update.every apt.update_interval }

/-! ## `button.rs`: the button widget

External pieces are embedded behaviourally: the process-wide theme as the
color mapping `State → (background, foreground)` it induces, icon lookup as
`String → Option String`, and `serde_json::Value::to_string` as a concrete
JSON printer over a record type mirroring the `json!` object. -/

/-- Modelled from the spec: the widget spacing mode (`widgets::Spacing`, not
under `src/`). The spec phrase "compact or hidden mode" and the two `match`es in
`ButtonWidget::update` distinguish `Normal`, a compact mode (`Inline`), and
`Hidden`. -/
inductive Spacing : Type
  | Normal
  | Inline
  | Hidden
deriving DecidableEq, Repr

/-- Modelled from the spec: the process-wide theme, reduced to the
deterministic `State → (background, foreground)` color mapping the spec
describes (`State::theme_keys` lives outside `src/`). -/
def Theme : Type := State → String × String

/-- Embeds `State::theme_keys`: look the state up in the theme. -/
def State.theme_keys (s : State) (theme : Theme) : String × String := theme s

/-- Embeds `SharedConfig`, reduced to what `button.rs` reads from it: the theme and
the icon table (`get_icon` returns `None` for an unknown icon name). -/
structure SharedConfig : Type where
  theme : Theme
  get_icon : String → Option String

/-- The JSON object built by `ButtonWidget::update` (and, without the `name`
key, by `ButtonWidget::new`): `serde_json` maps with the `name` field
optional, since the initializer in `new` omits it. -/
structure Rendered : Type where
  full_text : String
  separator : Bool
  name : Option Nat
  separator_block_width : Nat
  background : String
  color : String
  markup : String
deriving DecidableEq, Repr

/-- JSON string escaping as `serde_json` performs it: `"`, `\`, the named
control escapes, `\u00XX` for other control characters. -/
def jsonEscapeChar (c : Char) : String :=
  if c = '"' then "\\\""
  else if c = '\\' then "\\\\"
  else if c = '\n' then "\\n"
  else if c = '\r' then "\\r"
  else if c = '\t' then "\\t"
  else if c = Char.ofNat 8 then "\\b"
  else if c = Char.ofNat 12 then "\\f"
  else if c.toNat < 32 then
    let hexDigit : Nat → Char := fun n =>
      if n < 10 then Char.ofNat (48 + n) else Char.ofNat (87 + n)
    "\\u00" ++ String.mk [hexDigit (c.toNat / 16), hexDigit (c.toNat % 16)]
  else String.mk [c]

/-- A JSON string literal. -/
def jsonString (s : String) : String :=
  "\"" ++ String.join (s.data.map jsonEscapeChar) ++ "\""

/-- Embeds `serde_json::Value::to_string` on the rendered object: keys in
`serde_json` default default (sorted) order, the `name` key omitted when absent. -/
def serializeRendered (r : Rendered) : String :=
  "\x7b\"background\":" ++ jsonString r.background ++
  ",\"color\":" ++ jsonString r.color ++
  ",\"full_text\":" ++ jsonString r.full_text ++
  ",\"markup\":" ++ jsonString r.markup ++
  (match r.name with
   | some n => ",\"name\":" ++ Nat.repr n
   | none => "") ++
  ",\"separator\":" ++ (if r.separator then "true" else "false") ++
  ",\"separator_block_width\":" ++ Nat.repr r.separator_block_width ++
  "\x7d"

/-- Embeds `ButtonWidget` (`button.rs` lines 8-18). -/
structure ButtonWidget : Type where
  id : Nat
  content : Option String
  icon : Option String
  state : State
  spacing : Spacing
  rendered : Rendered
  cached_output : Option String
  shared_config : SharedConfig

/-- Embeds `ButtonWidget::new`: note the initial `rendered` object has NO `name`
key, placeholder black colors, and `cached_output` is `None`. -/
def ButtonWidget.new (id : Nat) (shared_config : SharedConfig) : ButtonWidget where
  id := id
  content := none
  icon := none
  state := State.Idle
  spacing := Spacing.Normal
  rendered :=
    { full_text := ""
      separator := false
      name := none
      separator_block_width := 0
      background := "#000000"
      color := "#000000"
      markup := "pango" }
  cached_output := none
  shared_config := shared_config

/-- The `full_text` string composed in `ButtonWidget::update`: the icon if
set, else a leading space only in `Normal` spacing; then the content (empty
if unset); then a trailing space unless spacing is `Hidden`. -/
def ButtonWidget.fullText (w : ButtonWidget) : String :=
  (match w.icon with
   | some i => i
   | none =>
     match w.spacing with
     | Spacing.Normal => " "
     | _ => "") ++
  (match w.content with
   | some c => c
   | none => "") ++
  (match w.spacing with
   | Spacing.Hidden => ""
   | _ => " ")

/-- The object assigned to `self.rendered` by `ButtonWidget::update`,
computed from the current fields and the colors the theme assigns to the state. -/
def ButtonWidget.computeRendered (w : ButtonWidget) : Rendered :=
  let keys := w.state.theme_keys w.shared_config.theme
  { full_text := w.fullText
    separator := false
    name := some w.id
    separator_block_width := 0
    background := keys.1
    color := keys.2
    markup := "pango" }

/-- Embeds `ButtonWidget::update`: recompute `rendered` and store its serialization
in `cached_output`. -/
def ButtonWidget.update (w : ButtonWidget) : ButtonWidget :=
  let r := w.computeRendered
  { w with rendered := r, cached_output := some (serializeRendered r) }

/-- Embeds `ButtonWidget::set_text`. -/
def ButtonWidget.set_text (w : ButtonWidget) (content : String) : ButtonWidget :=
  { w with content := some content }.update

/-- Embeds `ButtonWidget::set_icon` (the icon table lookup may return `None`). -/
def ButtonWidget.set_icon (w : ButtonWidget) (name : String) : ButtonWidget :=
  { w with icon := w.shared_config.get_icon name }.update

/-- Embeds `ButtonWidget::set_state`. -/
def ButtonWidget.set_state (w : ButtonWidget) (state : State) : ButtonWidget :=
  { w with state := state }.update

/-- Embeds `ButtonWidget::set_spacing`. -/
def ButtonWidget.set_spacing (w : ButtonWidget) (spacing : Spacing) : ButtonWidget :=
  { w with spacing := spacing }.update

/-- Embeds `ButtonWidget::with_icon`. -/
def ButtonWidget.with_icon (w : ButtonWidget) (name : String) : ButtonWidget :=
  { w with icon := w.shared_config.get_icon name }.update

/-- Embeds `ButtonWidget::with_content`. -/
def ButtonWidget.with_content (w : ButtonWidget) (content : Option String) : ButtonWidget :=
  { w with content := content }.update

/-- Embeds `ButtonWidget::with_text`. -/
def ButtonWidget.with_text (w : ButtonWidget) (content : String) : ButtonWidget :=
  { w with content := some content }.update

/-- Embeds `ButtonWidget::with_state`. -/
def ButtonWidget.with_state (w : ButtonWidget) (state : State) : ButtonWidget :=
  { w with state := state }.update

/-- Embeds `ButtonWidget::with_spacing`. -/
def ButtonWidget.with_spacing (w : ButtonWidget) (spacing : Spacing) : ButtonWidget :=
  { w with spacing := spacing }.update

/-- Embeds `I3BarWidget::to_string for ButtonWidget`: the cached serialization when
present, otherwise serialize `rendered` on the fly. -/
def ButtonWidget.to_string (w : ButtonWidget) : String :=
  match w.cached_output with
  | some s => s
  | none => serializeRendered w.rendered

/-- Embeds `I3BarWidget::get_rendered for ButtonWidget`. -/
def ButtonWidget.get_rendered (w : ButtonWidget) : Rendered := w.rendered

/-- The cache invariant of the spec: `cached_output` holds exactly the
serialization of the object recomputed from the CURRENT fields of the widget and
the theme, and `rendered` is that object. -/
def ButtonWidget.cacheConsistent (w : ButtonWidget) : Prop :=
  w.rendered = w.computeRendered ∧
  w.cached_output = some (serializeRendered w.computeRendered)

/-! ## Concrete inputs used by witnesses and counterexamples -/

/-- Option-valued error test, used to state that a construction fails. -/
def exceptIsError {ε α : Type} : Except ε α → Bool
  | .error _ => true
  | .ok _ => false

/-- An upgradable listing line for package `foo` (phased at 45% per
`policy45and100`). -/
def line45 : String := "foo/jammy 2.0 amd64 [upgradable from: 1.0]"

/-- An upgradable listing line for package `bar` (phased at 100% per
`policy45and100`). -/
def line100 : String := "bar/jammy 2.0 amd64 [upgradable from: 1.0]"

/-- The two-line scenario listing of the spec: one line phased at 45%, one at
100%. -/
def scenarioListing : String := line45 ++ "\n" ++ line100 ++ "\n"

/-- A listing whose only upgradable line is the 100%-phased one. -/
def only100Listing : String := line100 ++ "\n"

/-- The `apt-cache policy` oracle of the scenario: `foo` is phased at 45%,
`bar` at 100%. -/
def policy45and100 : String → String := fun name =>
  if name = "foo" then "foo:\n  Installed: 1.0\n  Candidate: 2.0 (phased 45%)\n"
  else if name = "bar" then "bar:\n  Installed: 1.0\n  Candidate: 2.0 (phased 100%)\n"
  else ""

/-- An `Apt` block with no severity regexes and phased exclusion off. -/
def aptPlain : AptBlock where
  update_interval := 600
  warning_updates_regex := none
  critical_updates_regex := none
  ignore_waiting_phased_updates := false

/-- A warning matcher: the line contains `"warn"`. -/
def warnRegexF : RegexF := fun line => containsSub "warn".data line.data

/-- A critical matcher: the line contains `"crit"`. -/
def critRegexF : RegexF := fun line => containsSub "crit".data line.data

/-- An `Apt` block with both severity regexes configured. -/
def aptSev : AptBlock where
  update_interval := 600
  warning_updates_regex := some warnRegexF
  critical_updates_regex := some critRegexF
  ignore_waiting_phased_updates := false

/-- A listing with two upgradable lines, one matching the critical pattern
and a different one matching the warning pattern. -/
def sevListing : String :=
  "a/x 1.0 amd64 [upgradable from: 0.9] crit\nb/y 2.0 amd64 [upgradable from: 1.9] warn"

/-- An `Apt` block whose severity regexes match every line. -/
def aptAllSev : AptBlock where
  update_interval := 300
  warning_updates_regex := some (fun _ => true)
  critical_updates_regex := some (fun _ => true)
  ignore_waiting_phased_updates := false

/-- A listing with no upgradable line (both severity patterns of `aptAllSev`
still match it). -/
def noUpdatesListing : String := "warn crit security notice"

/-- The outcome of `Apt.update aptPlain` on the two-line scenario listing. -/
def outPlain : UpdateOutcome where
  texts := FormatVariant.many
  count := 2
  state := State.Info
  policy := Update.every 600

/-- The outcome of `Apt.update aptSev` on `sevListing`. -/
def outSev : UpdateOutcome where
  texts := FormatVariant.many
  count := 2
  state := State.Critical
  policy := Update.every 600

/-- The outcome of `Apt.update aptAllSev` on `noUpdatesListing`. -/
def outZero : UpdateOutcome where
  texts := FormatVariant.upToDate
  count := 0
  state := State.Idle
  policy := Update.every 300

/-- A configuration whose warning pattern string will fail to compile under
the all-rejecting compile oracle. -/
def cfgBadWarn : AptConfig where
  interval := 600
  warning_updates_regex := some "("
  critical_updates_regex := none
  ignore_waiting_phased_updates := false

/-- A trivial shared config: constant theme colors, empty icon table. -/
def cfg0 : SharedConfig where
  theme := fun _ => ("#000000", "#ffffff")
  get_icon := fun _ => none

/-! ## Helper lemmas -/

/-- Substring containment as implemented agrees with `List.IsInfix`. -/
theorem containsSub_correct (needle hay : List Char) :
    containsSub needle hay = true ↔ needle <:+: hay := by
  induction hay with
  | nil => simp [containsSub, List.isEmpty_iff]
  | cons c rest ih =>
    simp [containsSub, List.infix_cons_iff, ih, List.isPrefixOf_iff_prefix]

/-- Boolean form of `containsSub_correct`. -/
theorem containsSub_eq_decide (needle hay : List Char) :
    containsSub needle hay = decide (needle <:+: hay) := by
  by_cases hi : needle <:+: hay
  · simp [hi, (containsSub_correct needle hay).mpr hi]
  · cases hb : containsSub needle hay
    · simp [hi]
    · exact absurd ((containsSub_correct needle hay).mp hb) hi

/-- A failed pattern compilation makes `compileOpt` return the error. -/
theorem compileOpt_none (compile : String → Option RegexF) (s msg : String)
    (h : compile s = none) :
    compileOpt compile (some s) msg = Except.error msg := by
  simp [compileOpt, h]

/-! ## Claim theorems -/

/-- Claim C1 (code bug, evaluation): `get_update_count_ignore_waiting_phased`
counts the upgradable lines whose package IS a waiting phased update, not
those that are not. On a listing whose only upgradable line is phased at
100% it returns 0, where the claim (and the config option documentation,
which says phased updates under 100% are removed from the count) requires 1;
on the two-line 45%/100% scenario it returns 1, but because
`is_waiting_phased_update` holds of the 45% line and not of the 100% line,
so the counted line is the 45% one — the opposite of "only the 100% line
counts". -/
theorem phased_count_keeps_waiting_lines :
    get_update_count_ignore_waiting_phased policy45and100 only100Listing = Except.ok 0 ∧
    get_update_count_ignore_waiting_phased policy45and100 scenarioListing = Except.ok 1 ∧
    get_update_count_ignore_waiting_phased policy45and100 (line45 ++ "\n") = Except.ok 1 ∧
    is_waiting_phased_update policy45and100 line45 = Except.ok true ∧
    is_waiting_phased_update policy45and100 line100 = Except.ok false :=
  ⟨rfl, rfl, rfl, rfl, rfl⟩

/-- Claim C2: for every count `n` computed by `Apt::update`, the up-to-date
template variant is rendered iff `n = 0`, the singular variant iff `n = 1`,
and the default variant iff `n ≥ 2`; the selection is exhaustive and
deterministic. -/
theorem apt_update_variant_selection
    (apt : AptBlock) (policy : String → String) (updates_list : String)
    (out : UpdateOutcome) (h : Apt.update apt policy updates_list = Except.ok out) :
    (out.texts = FormatVariant.upToDate ↔ out.count = 0) ∧
    (out.texts = FormatVariant.singular ↔ out.count = 1) ∧
    (out.texts = FormatVariant.many ↔ 2 ≤ out.count) := by
  unfold Apt.update at h
  cases hc : Apt.countUpdates apt policy updates_list with
  | error e => rw [hc] at h; exact absurd h (by simp)
  | ok n =>
    rw [hc] at h
    simp at h
    subst h
    rcases n with _ | _ | n <;> simp

/-- Witness for C2: on the two-line scenario listing, `aptPlain` computes
count 2 and renders the default (many) variant. -/
theorem apt_update_variant_selection_witness :
    (outPlain.texts = FormatVariant.upToDate ↔ outPlain.count = 0) ∧
    (outPlain.texts = FormatVariant.singular ↔ outPlain.count = 1) ∧
    (outPlain.texts = FormatVariant.many ↔ 2 ≤ outPlain.count) :=
  apt_update_variant_selection aptPlain (fun _ => "") scenarioListing outPlain (by rfl)

/-- Claim C3: with both patterns configured and a nonzero count, the widget
state is Critical exactly when the critical pattern matches some line of the
listing (even when the warning pattern also matches); when the critical
pattern matches no line, the state is Warning exactly when the warning
pattern matches some line; when neither matches, the state is Info. -/
theorem apt_update_critical_precedence
    (apt : AptBlock) (policy : String → String) (updates_list : String)
    (wre cre : RegexF) (out : UpdateOutcome)
    (hw : apt.warning_updates_regex = some wre)
    (hc : apt.critical_updates_regex = some cre)
    (h : Apt.update apt policy updates_list = Except.ok out)
    (hn : out.count ≠ 0) :
    (out.state = State.Critical ↔ has_critical_update updates_list cre = true) ∧
    (has_critical_update updates_list cre = false →
      (out.state = State.Warning ↔ has_warning_update updates_list wre = true)) ∧
    (has_critical_update updates_list cre = false →
      has_warning_update updates_list wre = false →
      out.state = State.Info) := by
  unfold Apt.update at h
  cases hcu : Apt.countUpdates apt policy updates_list with
  | error e => rw [hcu] at h; exact absurd h (by simp)
  | ok n =>
    rw [hcu, hw, hc] at h
    simp at h
    subst h
    rcases n with _ | n
    · simp at hn
    · dsimp only
      cases hcrit : has_critical_update updates_list cre <;>
        cases hwarn : has_warning_update updates_list wre <;>
        simp [hcrit, hwarn]

/-- Witness for C3: on `sevListing` the critical pattern matches one line and
the warning pattern matches a different line, and the state is Critical. -/
theorem apt_update_critical_precedence_witness :
    outSev.state = State.Critical ∧
    has_critical_update sevListing critRegexF = true ∧
    has_warning_update sevListing warnRegexF = true := by
  have h := apt_update_critical_precedence aptSev (fun _ => "") sevListing
    warnRegexF critRegexF outSev rfl rfl (by rfl) (by decide)
  exact ⟨h.1.mpr (by rfl), by rfl, by rfl⟩

/-- Claim C9: every successful `Apt::update` returns the wake-again policy
with the configured interval (default 600 seconds) and never the dormant
outcome. -/
theorem apt_update_always_reschedules_interval
    (apt : AptBlock) (policy : String → String) (updates_list : String)
    (out : UpdateOutcome) (h : Apt.update apt policy updates_list = Except.ok out) :
    out.policy = Update.every apt.update_interval ∧
    out.policy ≠ Update.dormant ∧
    AptConfig.default.interval = 600 := by
  unfold Apt.update at h
  cases hcu : Apt.countUpdates apt policy updates_list with
  | error e => rw [hcu] at h; exact absurd h (by simp)
  | ok n =>
    rw [hcu] at h
    simp at h
    subst h
    exact ⟨rfl, by simp, rfl⟩

/-- Witness for C9 at the two-line scenario. -/
theorem apt_update_always_reschedules_interval_witness :
    outPlain.policy = Update.every aptPlain.update_interval ∧
    outPlain.policy ≠ Update.dormant ∧
    AptConfig.default.interval = 600 :=
  apt_update_always_reschedules_interval aptPlain (fun _ => "") scenarioListing
    outPlain (by rfl)

/-- Claim C10: when the computed count is 0, the state is Idle, independently
of the severity patterns (which the quantified block may configure to match
arbitrary lines). -/
theorem apt_update_zero_count_idle
    (apt : AptBlock) (policy : String → String) (updates_list : String)
    (out : UpdateOutcome) (h : Apt.update apt policy updates_list = Except.ok out)
    (h0 : out.count = 0) :
    out.state = State.Idle := by
  unfold Apt.update at h
  cases hcu : Apt.countUpdates apt policy updates_list with
  | error e => rw [hcu] at h; exact absurd h (by simp)
  | ok n =>
    rw [hcu] at h
    simp at h
    subst h
    simp at h0
    subst h0
    rfl

/-- Witness for C10: `aptAllSev` has always-matching warning and critical
patterns, yet on a listing with no upgradable line the state is Idle. -/
theorem apt_update_zero_count_idle_witness :
    outZero.state = State.Idle :=
  apt_update_zero_count_idle aptAllSev (fun _ => "") noUpdatesListing outZero
    (by rfl) (by rfl)

/-- Claim C7: with phased exclusion disabled, the count equals the number of
lines of the listing containing the substring `"[upgradable"` (stated via
`List.IsInfix` on the characters), and the two-line scenario listing counts
2. -/
theorem get_update_count_counts_upgradable_lines :
    (∀ updates : String, get_update_count updates =
      (rustLines updates).countP
        (fun line => decide (upgradableMarker <:+: line.data))) ∧
    get_update_count scenarioListing = 2 := by
  constructor
  · intro updates
    simp only [get_update_count, List.countP_eq_length_filter, containsSub_eq_decide]
  · rfl

/-- Claim C8: when the warning or the critical pattern string fails to
compile, `ConfigBlock::new` for `Apt` returns an error, so the block is never
constructed with an invalid pattern. -/
theorem apt_new_rejects_invalid_pattern
    (compile : String → Option RegexF) (cfg : AptConfig)
    (h : (∃ s, cfg.warning_updates_regex = some s ∧ compile s = none) ∨
         (∃ s, cfg.critical_updates_regex = some s ∧ compile s = none)) :
    exceptIsError (Apt.new compile cfg) = true := by
  unfold Apt.new
  rcases h with ⟨s, hs, hcs⟩ | ⟨s, hs, hcs⟩
  · rw [hs, compileOpt_none compile s _ hcs]
    rfl
  · cases hw : compileOpt compile cfg.warning_updates_regex
        "invalid warning updates regex" with
    | error e => rfl
    | ok w =>
      rw [hs, compileOpt_none compile s _ hcs]
      rfl

/-- Witness for C8: an all-rejecting compile oracle and a configuration with
a warning pattern string make construction fail. -/
theorem apt_new_rejects_invalid_pattern_witness :
    exceptIsError (Apt.new (fun _ => none) cfgBadWarn) = true :=
  apt_new_rejects_invalid_pattern (fun _ => none) cfgBadWarn
    (Or.inl ⟨"(", rfl, rfl⟩)

/-- Claim C4: every mutating operation and builder variant of `ButtonWidget`
leaves the widget cache-consistent — `cached_output` is the serialization of
the object recomputed from all current fields and the theme colors for the
state — and consequently `to_string` returns exactly that serialization
without recomputation, never observing a stale combination of fields. -/
theorem button_mutators_keep_cache_fresh
    (w : ButtonWidget) (s nm : String) (c? : Option String)
    (st : State) (sp : Spacing) :
    ((w.set_text s).cacheConsistent ∧
      (w.set_text s).to_string = serializeRendered (w.set_text s).computeRendered) ∧
    ((w.set_icon nm).cacheConsistent ∧
      (w.set_icon nm).to_string = serializeRendered (w.set_icon nm).computeRendered) ∧
    ((w.set_state st).cacheConsistent ∧
      (w.set_state st).to_string = serializeRendered (w.set_state st).computeRendered) ∧
    ((w.set_spacing sp).cacheConsistent ∧
      (w.set_spacing sp).to_string = serializeRendered (w.set_spacing sp).computeRendered) ∧
    ((w.with_icon nm).cacheConsistent ∧
      (w.with_icon nm).to_string = serializeRendered (w.with_icon nm).computeRendered) ∧
    ((w.with_content c?).cacheConsistent ∧
      (w.with_content c?).to_string = serializeRendered (w.with_content c?).computeRendered) ∧
    ((w.with_text s).cacheConsistent ∧
      (w.with_text s).to_string = serializeRendered (w.with_text s).computeRendered) ∧
    ((w.with_state st).cacheConsistent ∧
      (w.with_state st).to_string = serializeRendered (w.with_state st).computeRendered) ∧
    ((w.with_spacing sp).cacheConsistent ∧
      (w.with_spacing sp).to_string = serializeRendered (w.with_spacing sp).computeRendered) :=
  ⟨⟨⟨rfl, rfl⟩, rfl⟩, ⟨⟨rfl, rfl⟩, rfl⟩, ⟨⟨rfl, rfl⟩, rfl⟩, ⟨⟨rfl, rfl⟩, rfl⟩,
   ⟨⟨rfl, rfl⟩, rfl⟩, ⟨⟨rfl, rfl⟩, rfl⟩, ⟨⟨rfl, rfl⟩, rfl⟩, ⟨⟨rfl, rfl⟩, rfl⟩,
   ⟨⟨rfl, rfl⟩, rfl⟩⟩

/-- Counterexample for C5: a freshly constructed `ButtonWidget` (id 3) has no
`name` field in its rendered record at all, in particular not one equal to
its id. -/
theorem button_new_rendered_lacks_name :
    (ButtonWidget.new 3 cfg0).get_rendered.name ≠ some 3 ∧
    (ButtonWidget.new 3 cfg0).get_rendered.name = none :=
  ⟨by decide, rfl⟩

/-- Claim C5 as amended: after any mutating or builder operation the rendered
record carries a `name` field equal to the owning block id, but the record of
a freshly constructed widget lacks the `name` field until the first such
operation. -/
theorem button_rendered_name_after_mutation
    (id : Nat) (cfg : SharedConfig) (w : ButtonWidget) (s nm : String)
    (c? : Option String) (st : State) (sp : Spacing) :
    (ButtonWidget.new id cfg).get_rendered.name = none ∧
    (w.set_text s).get_rendered.name = some w.id ∧
    (w.set_icon nm).get_rendered.name = some w.id ∧
    (w.set_state st).get_rendered.name = some w.id ∧
    (w.set_spacing sp).get_rendered.name = some w.id ∧
    (w.with_icon nm).get_rendered.name = some w.id ∧
    (w.with_content c?).get_rendered.name = some w.id ∧
    (w.with_text s).get_rendered.name = some w.id ∧
    (w.with_state st).get_rendered.name = some w.id ∧
    (w.with_spacing sp).get_rendered.name = some w.id :=
  ⟨rfl, rfl, rfl, rfl, rfl, rfl, rfl, rfl, rfl, rfl⟩

/-- Claim C6: the `full_text` of the rendered fragment is the icon if one is
set, otherwise a single leading space only in Normal spacing; followed by the
content (empty if unset); followed by a single trailing space unless spacing
is Hidden. -/
theorem button_full_text_spacing_policy (w : ButtonWidget) :
    w.update.get_rendered.full_text =
      (match w.icon with
       | some i => i
       | none => if w.spacing = Spacing.Normal then " " else "") ++
      w.content.getD "" ++
      (if w.spacing = Spacing.Hidden then "" else " ") := by
  obtain ⟨id, c, i, st, sp, r, co, cfg⟩ := w
  cases i <;> cases sp <;> cases c <;> rfl

end I3Status
